import Mathlib

/-!
Verification of the portfolio-core specification of `finance-portfolio`
(multi-currency valuation, mean-variance optimization, rebalancing).

The Python source (`app/pages/portfolio.py`, `app/pages/investments.py`) is
shallowly embedded over `ℚ` (exact rationals in place of IEEE floats; the
claims under study are algebraic identities and guard conditions, which the
float code computes up to rounding).  External collaborators — the yfinance
price/rate fetches and the scipy SLSQP solver — enter as explicit parameters.
-/

/-! ## Currency conversion (portfolio.py lines 17-34, 210-214) -/

/-- Embeds `get_current_exchange_rate` (portfolio.py lines 17-25): the
yfinance fetch is an external collaborator, modelled by the `fetched`
parameter; on fetch failure (`none`) the function returns the default
`1300.0`. -/
def get_current_exchange_rate (fetched : Option ℚ) : ℚ :=
  fetched.getD 1300

/-- Embeds `convert_to_krw` (portfolio.py lines 28-34): for `"USD"` the
amount is multiplied by the supplied rate, with a `None` rate replaced by
`get_current_exchange_rate()`; any other currency is returned unchanged. -/
def convert_to_krw (fetched : Option ℚ) (amount : ℚ) (currency : String)
    (exchange_rate : Option ℚ) : ℚ :=
  if currency = "USD" then
    amount * (exchange_rate.getD (get_current_exchange_rate fetched))
  else amount

/-- Embeds `calculate_krw_amount` (portfolio.py lines 210-214). -/
def calculate_krw_amount (amount : ℚ) (currency : String)
    (exchange_rate : ℚ) : ℚ :=
  if currency = "USD" then amount * exchange_rate else amount

/-! ## Holdings and portfolio metrics (portfolio.py lines 67-116, 169-207) -/

/-- A stored holding record, with the fields read by the metric functions.
`current_amount` and `purchase_exchange_rate` model the optional dict keys
(`item.get(...)` with a default). -/
structure Item where
  amount : ℚ
  current_amount : Option ℚ
  currency : String
  purchase_exchange_rate : Option ℚ
deriving DecidableEq

/-- Purchase-time KRW value of one item (portfolio.py lines 78-86): USD
items are converted at the stored purchase_exchange_rate key, with the
default 1300.0 when that key is absent. -/
def purchaseKrw (fetched : Option ℚ) (item : Item) : ℚ :=
  if item.currency = "USD" then
    convert_to_krw fetched item.amount item.currency
      (some (item.purchase_exchange_rate.getD 1300))
  else item.amount

/-- Current KRW value of one item (portfolio.py lines 90-96): the current
amount (the current_amount key, falling back to amount), USD items
converted at the `exchange_rate` argument (which may be `None`). -/
def currentKrw (fetched : Option ℚ) (exchange_rate : Option ℚ)
    (item : Item) : ℚ :=
  if item.currency = "USD" then
    convert_to_krw fetched (item.current_amount.getD item.amount)
      item.currency exchange_rate
  else (item.current_amount.getD item.amount)

/-- Result record of `calculate_portfolio_metrics`: `total` is the
purchase-rate total, `total_krw` the current-value total, `weights` the
per-key percentage weights. -/
structure PortfolioMetrics where
  total : ℚ
  total_krw : ℚ
  weights : List (String × ℚ)
deriving DecidableEq

/-- Embeds `calculate_portfolio_metrics` (portfolio.py lines 67-116); the
holdings dict is an association list. -/
def calculate_portfolio_metrics (fetched : Option ℚ)
    (data : List (String × Item)) (exchange_rate : Option ℚ) :
    PortfolioMetrics :=
  if data = [] then ⟨0, 0, []⟩
  else
    let total_krw := (data.map (fun kv => purchaseKrw fetched kv.2)).sum
    let current_total_krw :=
      (data.map (fun kv => currentKrw fetched exchange_rate kv.2)).sum
    let weights :=
      if current_total_krw = 0 then data.map (fun kv => (kv.1, (0 : ℚ)))
      else data.map (fun kv =>
        (kv.1, currentKrw fetched exchange_rate kv.2 / current_total_krw * 100))
    ⟨total_krw, current_total_krw, weights⟩

/-- Result record of `calculate_investment_metrics`. -/
structure InvMetrics where
  total_investment : ℚ
  total_value : ℚ
  total_profit : ℚ
  total_profit_rate : ℚ
deriving DecidableEq

/-- Loop body of the investment-total accumulation (portfolio.py lines
183-189): USD amounts at the current exchange rate. -/
def investmentKrw (exchange_rate : ℚ) (item : Item) : ℚ :=
  if item.currency = "USD" then item.amount * exchange_rate else item.amount

/-- Loop body of the value-total accumulation (portfolio.py lines
191-196): the current_amount key (falling back to amount) at the current
rate. -/
def valueKrw (exchange_rate : ℚ) (item : Item) : ℚ :=
  if item.currency = "USD" then
    (item.current_amount.getD item.amount) * exchange_rate
  else (item.current_amount.getD item.amount)

/-- Embeds `calculate_investment_metrics` (portfolio.py lines 169-207):
totals at the single `exchange_rate` argument, profit rate guarded on a
positive investment total. -/
def calculate_investment_metrics (data : List (String × Item))
    (exchange_rate : ℚ) : InvMetrics :=
  if data = [] then ⟨0, 0, 0, 0⟩
  else
    let ti := (data.map (fun kv => investmentKrw exchange_rate kv.2)).sum
    let tv := (data.map (fun kv => valueKrw exchange_rate kv.2)).sum
    ⟨ti, tv, tv - ti, if 0 < ti then (tv - ti) / ti * 100 else 0⟩

/-! ## Daily-return frames (portfolio.py lines 37-64)

A price history is a list of `(date, close)` pairs with strictly increasing
dates; a return series likewise.  `pd.DataFrame(returns_data)` outer-joins
the per-symbol series on their date indices, leaving `NaN` (here: a missing
lookup) where a symbol has no observation. -/

/-- Embeds the pct_change().dropna() of the Close column of one symbol
(portfolio.py line 56): the fractional change between consecutive closes,
keyed by the later date; the first row (undefined change) is dropped. -/
def pctChanges : List (ℕ × ℚ) → List (ℕ × ℚ)
  | [] => []
  | [_] => []
  | (_, p₀) :: (d₁, p₁) :: rest =>
      (d₁, (p₁ - p₀) / p₀) :: pctChanges ((d₁, p₁) :: rest)

/-- Entry of a return series at a date, `none` when the series has no
observation there (the `NaN` cells of the joined DataFrame). -/
def lookupDate (d : ℕ) (s : List (ℕ × ℚ)) : Option ℚ :=
  (s.find? (fun p => p.1 == d)).map Prod.snd

/-- The sorted union of the date indices of the per-symbol series: the row
index of `pd.DataFrame(returns_data)`. -/
def unionDates (cols : List (List (ℕ × ℚ))) : List ℕ :=
  ((cols.map (fun s => s.map Prod.fst)).flatten.dedup).insertionSort (· ≤ ·)

/-- The combined daily-return frame: its row index and one return series
per symbol; the cell at row `d`, column `j` is `lookupDate d (cols.get j)`. -/
structure ReturnsFrame where
  dates : List ℕ
  cols : List (List (ℕ × ℚ))
deriving DecidableEq

/-- Embeds `get_daily_returns` (portfolio.py lines 48-64): symbols whose
price fetch failed (`none`) are skipped; each remaining history is turned
into its own `pct_change().dropna()` series and the series are outer-joined
into one frame; with no data at all the function returns `None`. -/
def get_daily_returns (hists : List (Option (List (ℕ × ℚ)))) :
    Option ReturnsFrame :=
  let returns_data := (hists.filterMap id).map pctChanges
  if returns_data = [] then none
  else some ⟨unionDates returns_data, returns_data⟩

/-! ## Mean-variance optimizer (portfolio.py lines 119-166)

The optimizer's numeric inputs are complete `T × n` matrices of daily
returns (`Fin T → Fin n → ℚ`, rows = dates, columns = instruments). -/

/-- Column mean of the daily-return matrix: `returns.mean()`. -/
def colMean (T n : ℕ) (R : Fin T → Fin n → ℚ) (j : Fin n) : ℚ :=
  (∑ t, R t j) / (T : ℚ)

/-- Sample covariance (`ddof = 1`) of two columns: `returns.cov()`. -/
def sampleCov (T n : ℕ) (R : Fin T → Fin n → ℚ) (i j : Fin n) : ℚ :=
  (∑ t, (R t i - colMean T n R i) * (R t j - colMean T n R j)) /
    ((T : ℚ) - 1)

/-- Annualized covariance matrix `returns.cov() * 252` (line 121). -/
def annualCov (T n : ℕ) (R : Fin T → Fin n → ℚ) (i j : Fin n) : ℚ :=
  252 * sampleCov T n R i j

/-- Annualized mean returns `returns.mean() * 252` (lines 140, 158). -/
def annualMean (T n : ℕ) (R : Fin T → Fin n → ℚ) (j : Fin n) : ℚ :=
  252 * colMean T n R j

/-- Portfolio variance `np.dot(w.T, np.dot(cov_matrix, w))` with the
annualized covariance (line 122). -/
def portfolioVar (T n : ℕ) (R : Fin T → Fin n → ℚ) (w : Fin n → ℚ) : ℚ :=
  ∑ i, w i * ∑ j, annualCov T n R i j * w j

/-- Embeds `calculate_portfolio_risk` (portfolio.py lines 119-123): the
square root of the annualized portfolio variance. -/
noncomputable def calculate_portfolio_risk (T n : ℕ)
    (R : Fin T → Fin n → ℚ) (w : Fin n → ℚ) : ℝ :=
  Real.sqrt (portfolioVar T n R w)

/-- The raw outcome of the scipy SLSQP minimize call: a
success flag and the solution point. -/
structure SolveResult (n : ℕ) where
  success : Bool
  x : Fin n → ℚ

/-- The solver tolerance (SLSQP default `ftol = 1e-6`, per the spec). -/
def slsqpTol : ℚ := 1 / 1000000

/-- Modelled from the spec: the scipy SLSQP minimizer is an
external collaborator, absent from this repository.  Per the solver
description, a result it reports as successful respects the `[0, 1]`
bounds, meets the full-investment equality constraint within the solver
tolerance and, when a target return was requested, meets that equality
constraint within the tolerance as well (portfolio.py lines 134-153 build
exactly these bounds and constraints). -/
def slsqpSuccessOk (T n : ℕ) (R : Fin T → Fin n → ℚ) (target : Option ℚ)
    (r : SolveResult n) : Prop :=
  r.success = true →
    (∀ i, 0 ≤ r.x i ∧ r.x i ≤ 1) ∧
    |(∑ i, r.x i) - 1| ≤ slsqpTol ∧
    (match target with
     | none => True
     | some tr => |(∑ j, annualMean T n R j * r.x j) - tr| ≤ slsqpTol)

/-- The dict returned by `optimize_portfolio` on success. -/
structure OptResult (n : ℕ) where
  weights : Fin n → ℚ
  risk : ℝ
  expected_return : ℚ

/-- Embeds `optimize_portfolio` (portfolio.py lines 126-166), with the
solver run as a parameter: on solver success it returns the solved weights,
the recomputed risk `calculate_portfolio_risk(returns, w)` and the expected
return `np.sum(mean_returns * w)`; otherwise it returns `None`.  The
function performs no check on the number of instruments or dates. -/
noncomputable def optimize_portfolio (T n : ℕ) (R : Fin T → Fin n → ℚ)
    (target : Option ℚ) (result : SolveResult n) : Option (OptResult n) :=
  if result.success = true then
    some ⟨result.x, calculate_portfolio_risk T n R result.x,
          ∑ j, annualMean T n R j * result.x j⟩
  else none

/-! ## Rebalancing comparator (portfolio.py lines 592-626 and 766-780) -/

/-- Rounding to one decimal place: the %+.1f display format and the
strip-and-float re-parse round trip through which the
preset-based rebalancing path passes its delta (lines 603, 619). -/
def round1 (q : ℚ) : ℚ :=
  ((round (10 * q) : ℤ) : ℚ) / 10

/-- One displayed rebalancing suggestion: label, (percentage-point) delta,
trade direction, and suggested KRW trade amount. -/
structure RebalanceItem where
  label : String
  delta : ℚ
  action : String
  amount : ℚ
deriving DecidableEq

/-- Embeds the preset-based rebalancing suggestions (portfolio.py lines
594-626): per asset type the delta `target - current` is formatted to one
decimal and re-parsed, an item is emitted only when the rounded delta is at
least 5 percentage points in absolute value, with direction 매수 (buy) for a
positive delta and 매도 (sell) otherwise, and amount
`abs(diff) * total_portfolio_value / 100` computed from the rounded delta. -/
def preset_rebalance (asset_types : List String) (current target : String → ℚ)
    (total_value : ℚ) : List RebalanceItem :=
  (asset_types.map (fun t =>
      let diff := round1 (target t - current t)
      ⟨t, diff, if 0 < diff then "매수" else "매도",
       |diff| * total_value / 100⟩)).filter
    (fun item => 5 ≤ |item.delta|)

/-- Embeds the optimizer-based rebalancing suggestions (portfolio.py lines
766-780): per instrument `(symbol, optimal weight, current weight)` the
exact delta `(opt - current) * 100` is used, the threshold is 1 percentage
point, direction and amount as in the preset path but on the exact delta. -/
def optimizer_rebalance (assets : List (String × ℚ × ℚ))
    (total_value : ℚ) : List RebalanceItem :=
  (assets.map (fun p =>
      let diff := (p.2.1 - p.2.2) * 100
      ⟨p.1, diff, if 0 < diff then "매수" else "매도",
       |diff| * total_value / 100⟩)).filter
    (fun item => 1 ≤ |item.delta|)

/-! ## Per-holding returns and exchange effect
(investments.py lines 474-501, portfolio.py line 461) -/

/-- Embeds the KRW-converted return of a USD holding (investments.py lines
483-491): purchase amount at the purchase-time rate, current amount at the
current rate, zero when the converted purchase amount is not positive. -/
def usd_krw_return (amount current_amount purchase_rate current_rate : ℚ) : ℚ :=
  let krw_investment := amount * purchase_rate
  let krw_current := current_amount * current_rate
  if 0 < krw_investment then
    (krw_current - krw_investment) / krw_investment * 100
  else 0

/-- Embeds the exchange effect of a USD holding (investments.py line 496). -/
def usd_exchange_effect (purchase_rate current_rate : ℚ) : ℚ :=
  if 0 < purchase_rate then
    (current_rate - purchase_rate) / purchase_rate * 100
  else 0

/-- Embeds the simple native-currency return of a KRW holding
(investments.py line 499). -/
def krw_return (amount current_amount : ℚ) : ℚ :=
  if 0 < amount then (current_amount - amount) / amount * 100 else 0

/-- Embeds the native-currency per-holding return of the asset detail table
(portfolio.py line 461). -/
def native_return (amount current_amount : ℚ) : ℚ :=
  if 0 < amount then (current_amount / amount - 1) * 100 else 0

/-- The exchange-effect metric as rendered (investments.py lines 481-529):
it is computed and displayed only in the USD branch; a KRW holding gets no
exchange-effect figure (equivalently, a zero currency contribution). -/
def investment_exchange_effect (currency : String)
    (purchase_rate current_rate : ℚ) : Option ℚ :=
  if currency = "USD" then some ( usd_exchange_effect purchase_rate current_rate)
  else none

/-! ## General lemmas -/

/-- The reporting currency code differs from the foreign one. -/
theorem krw_ne_usd : ("KRW" : String) ≠ "USD" := by decide

/-- Summing a list after dividing each term by a common `τ` and scaling by
a common `c` scales the list's sum. -/
theorem sum_map_div_mul {α : Type} (l : List α) (g : α → ℚ) (τ c : ℚ) :
    (l.map (fun a => g a / τ * c)).sum = (l.map g).sum / τ * c := by
  induction l with
  | nil => simp
  | cons a l ih =>
      simp only [List.map_cons, List.sum_cons, ih]
      ring

/-! ## Theorems for the claims -/

/-- Claim C4: `convert_to_krw` (and `calculate_krw_amount`) is the identity
on KRW amounts regardless of any rate argument, and multiplies a USD amount
by a supplied positive exchange rate exactly. -/
theorem convert_to_krw_spec (fetched : Option ℚ) (amount rate : ℚ)
    (hr : 0 < rate) :
    convert_to_krw fetched amount "KRW" none = amount ∧
    (∀ r', convert_to_krw fetched amount "KRW" (some r') = amount) ∧
    convert_to_krw fetched amount "USD" (some rate) = amount * rate ∧
    (∀ r', calculate_krw_amount amount "KRW" r' = amount) ∧
    calculate_krw_amount amount "USD" rate = amount * rate := by
  refine ⟨?_, fun r' => ?_, ?_, fun r' => ?_, ?_⟩ <;>
    simp [convert_to_krw, calculate_krw_amount]

/-- Witness for C4 at amount 7 and rate 1400. -/
theorem convert_to_krw_spec_witness :
    (0 : ℚ) < 1400 ∧
    (convert_to_krw none 7 "KRW" none = 7 ∧
     (∀ r', convert_to_krw none 7 "KRW" (some r') = 7) ∧
     convert_to_krw none 7 "USD" (some 1400) = 7 * 1400 ∧
     (∀ r', calculate_krw_amount 7 "KRW" r' = 7) ∧
     calculate_krw_amount 7 "USD" 1400 = 7 * 1400) :=
  ⟨by norm_num, convert_to_krw_spec none 7 1400 (by norm_num)⟩

/-- Claim C5, counterexample: a USD conversion requested without any rate
does not fail — `convert_to_krw` silently substitutes the fetched current
rate (here the fetch-failure default 1300.0) and returns a value. -/
theorem convert_to_krw_no_invalid_rate :
    convert_to_krw none 10 "USD" none = 13000 := by
  norm_num [convert_to_krw, get_current_exchange_rate]

/-- Claim C5 as amended: when no rate is supplied for a USD conversion,
`convert_to_krw` substitutes `get_current_exchange_rate()` — the fetched
rate, or the default 1300.0 when the fetch fails — and returns the amount
times that substituted rate; no `InvalidRate` failure exists. -/
theorem convert_to_krw_substitutes_rate (fetched : Option ℚ) (amount : ℚ) :
    convert_to_krw fetched amount "USD" none =
      amount * get_current_exchange_rate fetched ∧
    get_current_exchange_rate none = 1300 := by
  constructor
  · simp [convert_to_krw]
  · rfl

/-- Claim C6, counterexample: a non-empty holdings mapping whose total
current value is zero gets all-zero weights, whose sum 0 is not within the
stated rounding tolerance (0.1 × 1 item) of 100. -/
theorem weights_sum_zero_total_counterexample :
    ¬ |(((calculate_portfolio_metrics none
            [("현금", ⟨0, none, "KRW", none⟩)] none).weights.map
          Prod.snd).sum - 100)| ≤ 1 / 10 * 1 := by
  norm_num [calculate_portfolio_metrics, currentKrw, purchaseKrw, krw_ne_usd]

/-- Claim C6 as amended: over any non-empty holdings mapping whose total
current value is nonzero, the weight percentages sum to exactly 100 (the
computation applies no rounding; rounding is display-only). -/
theorem weights_sum_100 (fetched er : Option ℚ)
    (data : List (String × Item)) (hne : data ≠ [])
    (h0 : (calculate_portfolio_metrics fetched data er).total_krw ≠ 0) :
    ((calculate_portfolio_metrics fetched data er).weights.map
      Prod.snd).sum = 100 := by
  simp only [calculate_portfolio_metrics, if_neg hne] at h0 ⊢
  rw [if_neg h0]
  have :
      (data.map (fun kv =>
        (kv.1, currentKrw fetched er kv.2 /
          (data.map (fun kv => currentKrw fetched er kv.2)).sum * 100))).map
        Prod.snd =
      data.map (fun kv => currentKrw fetched er kv.2 /
        (data.map (fun kv => currentKrw fetched er kv.2)).sum * 100) := by
    rw [List.map_map]
    rfl
  rw [this, sum_map_div_mul, div_self h0]
  norm_num

/-- Witness for the amended C6 at a two-item KRW portfolio with current
values 50 and 150. -/
theorem weights_sum_100_witness :
    ([("a", (⟨0, some 50, "KRW", none⟩ : Item)),
      ("b", ⟨0, some 150, "KRW", none⟩)] ≠
        ([] : List (String × Item))) ∧
    (calculate_portfolio_metrics none
      [("a", (⟨0, some 50, "KRW", none⟩ : Item)),
       ("b", ⟨0, some 150, "KRW", none⟩)] none).total_krw ≠ 0 ∧
    ((calculate_portfolio_metrics none
      [("a", (⟨0, some 50, "KRW", none⟩ : Item)),
       ("b", ⟨0, some 150, "KRW", none⟩)] none).weights.map
        Prod.snd).sum = 100 :=
  ⟨by simp,
   by norm_num [calculate_portfolio_metrics, currentKrw, krw_ne_usd,
     List.cons_ne_nil],
   weights_sum_100 none none _ (by simp)
     (by norm_num [calculate_portfolio_metrics, currentKrw, krw_ne_usd,
       List.cons_ne_nil])⟩

/-- Claim C7: the empty holdings mapping yields zero totals and an empty
weight mapping, and any holdings mapping with zero total current value
yields all-zero weights — neither case divides by zero. -/
theorem portfolio_metrics_empty_and_zero_total (fetched er : Option ℚ)
    (data : List (String × Item))
    (h0 : (calculate_portfolio_metrics fetched data er).total_krw = 0) :
    calculate_portfolio_metrics fetched [] er =
      ⟨0, 0, ([] : List (String × ℚ))⟩ ∧
    ∀ p ∈ (calculate_portfolio_metrics fetched data er).weights, p.2 = 0 := by
  refine ⟨rfl, ?_⟩
  intro p hp
  by_cases hd : data = []
  · subst hd
    simp [calculate_portfolio_metrics] at hp
  · simp only [calculate_portfolio_metrics, if_neg hd] at hp h0
    rw [if_pos h0] at hp
    obtain ⟨kv, _, hkv⟩ := List.mem_map.mp hp
    rw [← hkv]

/-- Witness for C7 at a single KRW holding of amount 0. -/
theorem portfolio_metrics_empty_and_zero_total_witness :
    (calculate_portfolio_metrics none
        [("a", (⟨0, none, "KRW", none⟩ : Item))] none).total_krw = 0 ∧
    (calculate_portfolio_metrics none ([] : List (String × Item)) none =
        ⟨0, 0, ([] : List (String × ℚ))⟩ ∧
     ∀ p ∈ (calculate_portfolio_metrics none
        [("a", (⟨0, none, "KRW", none⟩ : Item))] none).weights, p.2 = 0) :=
  ⟨by norm_num [calculate_portfolio_metrics, currentKrw, krw_ne_usd],
   portfolio_metrics_empty_and_zero_total none none _
     (by norm_num [calculate_portfolio_metrics, currentKrw, krw_ne_usd])⟩

/-- Claim C8: for a USD holding with positive purchase rate the exchange
effect is `(current_rate - purchase_rate) / purchase_rate * 100` while a
KRW holding gets none (zero); the reporting-currency return converts the
purchase amount at the purchase-time rate and the current amount at the
current rate before taking the percentage change, returning 0 on a zero
purchase amount; and the concrete 1000 @ 1300 → 1000 @ 1400 scenario gives
native return 0, reporting return 100/13 ≈ 7.69 and exchange effect
100/13 ≈ 7.69. -/
theorem investment_return_exchange_effect_spec (a ca pr cr : ℚ)
    (hpr : 0 < pr) (hinv : 0 < a * pr) :
    usd_exchange_effect pr cr = (cr - pr) / pr * 100 ∧
    investment_exchange_effect "KRW" pr cr = none ∧
    (investment_exchange_effect "KRW" pr cr).getD 0 = 0 ∧
    usd_krw_return a ca pr cr = (ca * cr - a * pr) / (a * pr) * 100 ∧
    usd_krw_return 0 ca pr cr = 0 ∧
    native_return 1000 1000 = 0 ∧
    krw_return 1000 1000 = 0 ∧
    usd_krw_return 1000 1000 1300 1400 = 100 / 13 ∧
    usd_exchange_effect 1300 1400 = 100 / 13 := by
  refine ⟨?_, ?_, ?_, ?_, ?_, ?_, ?_, ?_, ?_⟩
  · simp [usd_exchange_effect, hpr]
  · simp [investment_exchange_effect, krw_ne_usd]
  · simp [investment_exchange_effect, krw_ne_usd]
  · simp [usd_krw_return, hinv]
  · norm_num [usd_krw_return]
  · norm_num [native_return]
  · norm_num [krw_return]
  · norm_num [usd_krw_return]
  · norm_num [usd_exchange_effect]

/-- Witness for C8 at purchase amount 1000, current amount 1100, rates
1300 → 1400. -/
theorem investment_return_exchange_effect_spec_witness :
    (0 : ℚ) < 1300 ∧ (0 : ℚ) < 1000 * 1300 ∧
    (usd_exchange_effect 1300 1400 = (1400 - 1300) / 1300 * 100 ∧
     investment_exchange_effect "KRW" 1300 1400 = none ∧
     (investment_exchange_effect "KRW" 1300 1400).getD 0 = 0 ∧
     usd_krw_return 1000 1100 1300 1400 =
       (1100 * 1400 - 1000 * 1300) / (1000 * 1300) * 100 ∧
     usd_krw_return 0 1100 1300 1400 = 0 ∧
     native_return 1000 1000 = 0 ∧
     krw_return 1000 1000 = 0 ∧
     usd_krw_return 1000 1000 1300 1400 = 100 / 13 ∧
     usd_exchange_effect 1300 1400 = 100 / 13) :=
  ⟨by norm_num, by norm_num,
   investment_return_exchange_effect_spec 1000 1100 1300 1400
     (by norm_num) (by norm_num)⟩

/-- Claim C10: on a portfolio in which every holding is in KRW, neither the
fetched rate nor the exchange-rate argument influences
`calculate_portfolio_metrics` or `calculate_investment_metrics`. -/
theorem krw_only_rate_invariance (f₁ f₂ er₁ er₂ : Option ℚ) (r₁ r₂ : ℚ)
    (data : List (String × Item))
    (hkrw : ∀ kv ∈ data, kv.2.currency = "KRW") :
    calculate_portfolio_metrics f₁ data er₁ =
      calculate_portfolio_metrics f₂ data er₂ ∧
    calculate_investment_metrics data r₁ =
      calculate_investment_metrics data r₂ := by
  have hc : ∀ kv ∈ data, currentKrw f₁ er₁ kv.2 = currentKrw f₂ er₂ kv.2 := by
    intro kv hkv
    simp [currentKrw, hkrw kv hkv, krw_ne_usd]
  have hp : ∀ kv ∈ data, purchaseKrw f₁ kv.2 = purchaseKrw f₂ kv.2 := by
    intro kv hkv
    simp [purchaseKrw, hkrw kv hkv, krw_ne_usd]
  have hmapc : data.map (fun kv => currentKrw f₁ er₁ kv.2) =
      data.map (fun kv => currentKrw f₂ er₂ kv.2) :=
    List.map_congr_left hc
  have hmapp : data.map (fun kv => purchaseKrw f₁ kv.2) =
      data.map (fun kv => purchaseKrw f₂ kv.2) :=
    List.map_congr_left hp
  constructor
  · by_cases hd : data = []
    · subst hd; rfl
    · simp only [calculate_portfolio_metrics, if_neg hd]
      rw [hmapp, hmapc]
      congr 1
      by_cases h : (data.map (fun kv => currentKrw f₂ er₂ kv.2)).sum = 0
      · rw [if_pos h, if_pos h]
      · rw [if_neg h, if_neg h]
        exact List.map_congr_left (fun kv hkv => by rw [hc kv hkv])
  · by_cases hd : data = []
    · subst hd; rfl
    · simp only [calculate_investment_metrics, if_neg hd]
      have h₁ : data.map (fun kv => investmentKrw r₁ kv.2) =
          data.map (fun kv => investmentKrw r₂ kv.2) :=
        List.map_congr_left (fun kv hkv => by
          simp [investmentKrw, hkrw kv hkv, krw_ne_usd])
      have h₂ : data.map (fun kv => valueKrw r₁ kv.2) =
          data.map (fun kv => valueKrw r₂ kv.2) :=
        List.map_congr_left (fun kv hkv => by
          simp [valueKrw, hkrw kv hkv, krw_ne_usd])
      rw [h₁, h₂]

/-- Witness for C10: a two-holding KRW-only portfolio valued identically
under exchange rates 1300 and 1400. -/
theorem krw_only_rate_invariance_witness :
    (∀ kv ∈ [("a", (⟨100, some 120, "KRW", none⟩ : Item)),
             ("b", ⟨50, none, "KRW", none⟩)], kv.2.currency = "KRW") ∧
    (calculate_portfolio_metrics (some 1250)
        [("a", (⟨100, some 120, "KRW", none⟩ : Item)),
         ("b", ⟨50, none, "KRW", none⟩)] (some 1300) =
      calculate_portfolio_metrics none
        [("a", (⟨100, some 120, "KRW", none⟩ : Item)),
         ("b", ⟨50, none, "KRW", none⟩)] (some 1400) ∧
     calculate_investment_metrics
        [("a", (⟨100, some 120, "KRW", none⟩ : Item)),
         ("b", ⟨50, none, "KRW", none⟩)] 1300 =
      calculate_investment_metrics
        [("a", (⟨100, some 120, "KRW", none⟩ : Item)),
         ("b", ⟨50, none, "KRW", none⟩)] 1400) :=
  ⟨by intro kv hkv; fin_cases hkv <;> rfl,
   krw_only_rate_invariance (some 1250) none (some 1300) (some 1400)
     1300 1400 _
     (by intro kv hkv; fin_cases hkv <;> rfl)⟩

/-- Claim C1: whenever the SLSQP solve reports success, the returned
weights lie in `[0, 1]` and sum to 1 within the solver tolerance, the
expected return equals the dot product of the solved weights with the
column means of the daily returns multiplied by 252, and the risk equals
the square root of `wᵀ (cov · 252) w` at the solved weights. -/
theorem optimize_portfolio_success_spec (T n : ℕ) (R : Fin T → Fin n → ℚ)
    (target : Option ℚ) (r : SolveResult n)
    (hok : slsqpSuccessOk T n R target r) (hs : r.success = true) :
    ∃ out, optimize_portfolio T n R target r = some out ∧
      (∀ i, 0 ≤ out.weights i ∧ out.weights i ≤ 1) ∧
      |(∑ i, out.weights i) - 1| ≤ slsqpTol ∧
      out.expected_return = 252 * ∑ j, out.weights j * colMean T n R j ∧
      out.risk = Real.sqrt (∑ i, out.weights i * ∑ j,
        (252 * sampleCov T n R i j) * out.weights j) := by
  obtain ⟨hb, hsum, -⟩ := hok hs
  refine ⟨⟨r.x, calculate_portfolio_risk T n R r.x,
    ∑ j, annualMean T n R j * r.x j⟩, ?_, hb, hsum, ?_, ?_⟩
  · simp [optimize_portfolio, hs]
  · simp only [annualMean]
    rw [Finset.mul_sum]
    exact Finset.sum_congr rfl (fun j _ => by ring)
  · simp only [calculate_portfolio_risk, portfolioVar, annualCov]
    congr 1
    push_cast
    rfl

/-- Witness for C1 at a concrete 2 × 2 return matrix and the successful
equal-weight solver result. -/
theorem optimize_portfolio_success_spec_witness :
    slsqpSuccessOk 2 2 (![![(1 : ℚ)/100, 0], ![0, 1/50]]) none
      ⟨true, ![1/2, 1/2]⟩ ∧
    (⟨true, ![1/2, 1/2]⟩ : SolveResult 2).success = true ∧
    ∃ out, optimize_portfolio 2 2 (![![(1 : ℚ)/100, 0], ![0, 1/50]]) none
        ⟨true, ![1/2, 1/2]⟩ = some out ∧
      (∀ i, 0 ≤ out.weights i ∧ out.weights i ≤ 1) ∧
      |(∑ i, out.weights i) - 1| ≤ slsqpTol ∧
      out.expected_return = 252 * ∑ j, out.weights j *
        colMean 2 2 (![![(1 : ℚ)/100, 0], ![0, 1/50]]) j ∧
      out.risk = Real.sqrt (∑ i, out.weights i * ∑ j,
        (252 * sampleCov 2 2 (![![(1 : ℚ)/100, 0], ![0, 1/50]]) i j) *
          out.weights j) := by
  have hok : slsqpSuccessOk 2 2 (![![(1 : ℚ)/100, 0], ![0, 1/50]]) none
      ⟨true, ![1/2, 1/2]⟩ := by
    intro _
    refine ⟨?_, ?_, trivial⟩
    · intro i
      fin_cases i <;> constructor <;> norm_num
    · norm_num [Fin.sum_univ_two, slsqpTol]
  exact ⟨hok, rfl,
    optimize_portfolio_success_spec 2 2 _ none _ hok rfl⟩

/-- Claim C3, counterexample: with a single instrument (and three dates of
history) the optimizer signals no `InsufficientData`: the weight-1 solve
satisfies the solver-success contract, and `optimize_portfolio` then
returns a weight vector. -/
theorem single_instrument_produces_weights :
    slsqpSuccessOk 3 1 (fun t _ => (![(1 : ℚ)/100, -2/100, 3/100]) t) none
      ⟨true, fun _ => 1⟩ ∧
    ∃ out, optimize_portfolio 3 1
        (fun t _ => (![(1 : ℚ)/100, -2/100, 3/100]) t) none
        ⟨true, fun _ => 1⟩ = some out ∧
      out.weights = fun _ => 1 := by
  constructor
  · intro _
    refine ⟨?_, ?_, trivial⟩
    · intro i
      constructor <;> norm_num
    · norm_num [slsqpTol]
  · exact ⟨⟨fun _ => 1,
      calculate_portfolio_risk 3 1
        (fun t _ => (![(1 : ℚ)/100, -2/100, 3/100]) t) (fun _ => 1),
      ∑ j, annualMean 3 1
        (fun t _ => (![(1 : ℚ)/100, -2/100, 3/100]) t) j * 1⟩,
      by simp [optimize_portfolio], rfl⟩

/-- Claim C3 as amended: `optimize_portfolio` performs no
instrument-count or date-count check and defines no `InsufficientData`
signal; for any number of instruments — one included — it returns the
solved weight vector whenever the solver reports success, and `None` (the
generic solver-failure result) otherwise. -/
theorem optimize_portfolio_no_arity_check (T n : ℕ) (R : Fin T → Fin n → ℚ)
    (target : Option ℚ) (r : SolveResult n) :
    (r.success = true →
      optimize_portfolio T n R target r =
        some ⟨r.x, calculate_portfolio_risk T n R r.x,
              ∑ j, annualMean T n R j * r.x j⟩) ∧
    (r.success = false → optimize_portfolio T n R target r = none) := by
  constructor
  · intro hs
    simp [optimize_portfolio, hs]
  · intro hs
    simp [optimize_portfolio, hs]

/-- Witness for the amended C3 at the single-instrument input, in both the
solver-success and solver-failure cases. -/
theorem optimize_portfolio_no_arity_check_witness :
    optimize_portfolio 3 1 (fun t _ => (![(1 : ℚ)/100, -2/100, 3/100]) t)
      none ⟨true, fun _ => 1⟩ =
      some ⟨fun _ => 1,
        calculate_portfolio_risk 3 1
          (fun t _ => (![(1 : ℚ)/100, -2/100, 3/100]) t) (fun _ => 1),
        ∑ j, annualMean 3 1
          (fun t _ => (![(1 : ℚ)/100, -2/100, 3/100]) t) j * 1⟩ ∧
    optimize_portfolio 3 1 (fun t _ => (![(1 : ℚ)/100, -2/100, 3/100]) t)
      none ⟨false, fun _ => 1⟩ = none :=
  ⟨(optimize_portfolio_no_arity_check 3 1 _ none ⟨true, fun _ => 1⟩).1 rfl,
   (optimize_portfolio_no_arity_check 3 1 _ none ⟨false, fun _ => 1⟩).2 rfl⟩

/-- Claim C2, counterexample: two symbols whose histories overlap on only
part of their dates produce a combined frame that still contains date 2 as
a row although the first symbol has no return there — rows with a missing
value are not dropped before the frame is handed on. -/
theorem returns_frame_incomplete_row :
    get_daily_returns
        [some [((0 : ℕ), (100 : ℚ)), (1, 110)],
         some [((1 : ℕ), (100 : ℚ)), (2, 120)]] =
      some ⟨[1, 2], [[(1, 1/10)], [(2, 1/5)]]⟩ ∧
    2 ∈ ([1, 2] : List ℕ) ∧
    lookupDate 2 [((1 : ℕ), (1 : ℚ)/10)] = none := by
  have h₁ : pctChanges [((0 : ℕ), (100 : ℚ)), (1, 110)] = [(1, 1/10)] := by
    simp only [pctChanges]
    norm_num
  have h₂ : pctChanges [((1 : ℕ), (100 : ℚ)), (2, 120)] = [(2, 1/5)] := by
    simp only [pctChanges]
    norm_num
  have hdates : ∀ q q' : ℚ, unionDates [[(1, q)], [(2, q')]] = [1, 2] := by
    intro q q'
    simp [unionDates]
  refine ⟨?_, by decide, rfl⟩
  simp [get_daily_returns, h₁, h₂, hdates]

/-- Membership in the union of the series' date indices. -/
theorem mem_unionDates (cols : List (List (ℕ × ℚ))) (d : ℕ) :
    d ∈ unionDates cols ↔ ∃ s ∈ cols, ∃ q, (d, q) ∈ s := by
  unfold unionDates
  rw [(List.perm_insertionSort _ _).mem_iff, List.mem_dedup,
    List.mem_flatten]
  constructor
  · rintro ⟨l, hl, hd⟩
    obtain ⟨s, hs, rfl⟩ := List.mem_map.mp hl
    obtain ⟨⟨d', q⟩, hq, h⟩ := List.mem_map.mp hd
    exact ⟨s, hs, q, by simpa [← h] using hq⟩
  · rintro ⟨s, hs, q, hq⟩
    exact ⟨s.map Prod.fst, List.mem_map_of_mem _ hs,
      List.mem_map_of_mem _ hq⟩

/-- Claim C2 as amended: each instrument's series drops only its own first
(undefined) return; the combined frame is the outer join of the per-symbol
series — its columns are exactly the per-symbol `pct_change().dropna()`
series and its row index is the union of their dates, so a date is kept as
a row whenever at least one instrument has a return there, whether or not
every instrument does; no listwise row-dropping happens before the frame
is handed to the optimizer's covariance and mean computations. -/
theorem returns_frame_outer_join (hists : List (Option (List (ℕ × ℚ))))
    (f : ReturnsFrame) (hf : get_daily_returns hists = some f) :
    f.cols = (hists.filterMap id).map pctChanges ∧
    ∀ d : ℕ, d ∈ f.dates ↔ ∃ s ∈ f.cols, ∃ q, (d, q) ∈ s := by
  have hfeq : f = ⟨unionDates ((hists.filterMap id).map pctChanges),
      (hists.filterMap id).map pctChanges⟩ := by
    by_cases hne : (hists.filterMap id).map pctChanges = []
    · simp [get_daily_returns, hne] at hf
    · simp only [get_daily_returns, if_neg hne] at hf
      exact (Option.some_injective _ hf).symm
  subst hfeq
  exact ⟨rfl, fun d => mem_unionDates _ d⟩

/-- Witness for the amended C2 at a single two-price history. -/
theorem returns_frame_outer_join_witness :
    get_daily_returns [some [((0 : ℕ), (100 : ℚ)), (1, 110)]] =
      some ⟨[1], [[(1, 1/10)]]⟩ ∧
    ((⟨[1], [[(1, 1/10)]]⟩ : ReturnsFrame).cols =
      ([some [((0 : ℕ), (100 : ℚ)), (1, 110)]].filterMap id).map
        pctChanges ∧
     ∀ d : ℕ, d ∈ (⟨[1], [[(1, 1/10)]]⟩ : ReturnsFrame).dates ↔
       ∃ s ∈ (⟨[1], [[((1 : ℕ), (1 : ℚ)/10)]]⟩ : ReturnsFrame).cols,
         ∃ q, (d, q) ∈ s) := by
  have h : get_daily_returns [some [((0 : ℕ), (100 : ℚ)), (1, 110)]] =
      some ⟨[1], [[(1, 1/10)]]⟩ := by
    have h₁ : pctChanges [((0 : ℕ), (100 : ℚ)), (1, 110)] = [(1, 1/10)] := by
      simp only [pctChanges]
      norm_num
    have hdates : ∀ q : ℚ, unionDates [[(1, q)]] = [1] := by
      intro q
      simp [unionDates]
    simp [get_daily_returns, h₁, hdates]
  exact ⟨h, returns_frame_outer_join _ _ h⟩

/-- Claim C9, counterexample: the preset-granularity comparator applies
its 5-point threshold (and computes the suggested amount) on the delta
after one-decimal display rounding: with current weight 25.04 % and target
30 % the true delta is 4.96 < 5, yet the item is flagged, with delta and
amount taken from the rounded 5.0. -/
theorem preset_threshold_uses_rounded_delta :
    preset_rebalance ["주식"] (fun _ => 626/25) (fun _ => 30) 1000 =
      [⟨"주식", 5, "매수", 50⟩] ∧
    |(30 : ℚ) - 626/25| < 5 := by
  have hd : round1 ((30 : ℚ) - 626/25) = 5 := by
    norm_num [round1, round_eq]
  constructor
  · simp only [preset_rebalance, List.map_cons, List.map_nil, hd]
    norm_num [List.filter, abs_of_pos]
  · rw [abs_lt]
    constructor <;> norm_num

/-- Claim C9 as amended: every item flagged by the preset-granularity
comparator has a one-decimal-rounded delta of at least 5 percentage points
in absolute value (so a true delta of at least 4.95), with the suggested
amount `|rounded delta| × total / 100` and direction buy for a positive
and sell for a nonpositive rounded delta; the optimizer-granularity
comparator uses the exact delta with a 1-point threshold; and identical
current and target weights flag nothing at either granularity. -/
theorem rebalance_comparator_spec (ts : List String) (cw tw : String → ℚ)
    (tv : ℚ) (assets : List (String × ℚ × ℚ)) :
    (∀ item ∈ preset_rebalance ts cw tw tv,
        5 ≤ |item.delta| ∧ item.amount = |item.delta| * tv / 100 ∧
        item.action = (if 0 < item.delta then "매수" else "매도") ∧
        ∃ t ∈ ts, item.delta = round1 (tw t - cw t)) ∧
    (∀ item ∈ optimizer_rebalance assets tv,
        1 ≤ |item.delta| ∧ item.amount = |item.delta| * tv / 100 ∧
        item.action = (if 0 < item.delta then "매수" else "매도") ∧
        ∃ p ∈ assets, item.delta = (p.2.1 - p.2.2) * 100) ∧
    ((∀ t ∈ ts, cw t = tw t) → preset_rebalance ts cw tw tv = []) ∧
    ((∀ p ∈ assets, p.2.1 = p.2.2) →
      optimizer_rebalance assets tv = []) := by
  refine ⟨?_, ?_, ?_, ?_⟩
  · intro item hitem
    obtain ⟨hmem, hpred⟩ := List.mem_filter.mp hitem
    obtain ⟨t, ht, rfl⟩ := List.mem_map.mp hmem
    refine ⟨by simpa using hpred, rfl, rfl, t, ht, rfl⟩
  · intro item hitem
    obtain ⟨hmem, hpred⟩ := List.mem_filter.mp hitem
    obtain ⟨p, hp, rfl⟩ := List.mem_map.mp hmem
    refine ⟨by simpa using hpred, rfl, rfl, p, hp, rfl⟩
  · intro h
    rw [preset_rebalance, List.filter_eq_nil_iff]
    intro item hitem
    obtain ⟨t, ht, rfl⟩ := List.mem_map.mp hitem
    simp only [h t ht, sub_self]
    norm_num [round1, round_eq]
  · intro h
    rw [optimizer_rebalance, List.filter_eq_nil_iff]
    intro item hitem
    obtain ⟨p, hp, rfl⟩ := List.mem_map.mp hitem
    simp only [h p hp, sub_self]
    norm_num

/-- Witness for the amended C9: a flagged preset item at rounded delta 5,
and the two identical-weight cases flagging nothing. -/
theorem rebalance_comparator_spec_witness :
    (∀ item ∈ preset_rebalance ["주식"] (fun _ => 20) (fun _ => 30) 1000,
        5 ≤ |item.delta| ∧ item.amount = |item.delta| * 1000 / 100 ∧
        item.action = (if 0 < item.delta then "매수" else "매도") ∧
        ∃ t ∈ ["주식"], item.delta =
          round1 ((fun _ => (30 : ℚ)) t - (fun _ => (20 : ℚ)) t)) ∧
    (∀ t ∈ ["주식"], (fun _ => (25 : ℚ)) t = (fun _ => (25 : ℚ)) t) ∧
    preset_rebalance ["주식"] (fun _ => 25) (fun _ => 25) 1000 = [] ∧
    (∀ p ∈ [("A", (1 : ℚ)/2, (1 : ℚ)/2)], p.2.1 = p.2.2) ∧
    optimizer_rebalance [("A", (1 : ℚ)/2, (1 : ℚ)/2)] 1000 = [] :=
  ⟨(rebalance_comparator_spec ["주식"] (fun _ => 20) (fun _ => 30) 1000
      []).1,
   fun t _ => rfl,
   (rebalance_comparator_spec ["주식"] (fun _ => 25) (fun _ => 25) 1000
      []).2.2.1 (fun t _ => rfl),
   fun p hp => by fin_cases hp; rfl,
   (rebalance_comparator_spec [] (fun _ => 0) (fun _ => 0) 1000
      [("A", (1 : ℚ)/2, (1 : ℚ)/2)]).2.2.2 (fun p hp => by
        fin_cases hp; rfl)⟩
